import Mathlib

/-!
Shallow embedding of the ionos fleeting plugin (repository
`codecentric-fleeting-plugin-ionos`), covering the reconciliation engine:
`Update`, `Increase`, `Decrease`, `ConnectInfo`, `validateConfig`,
`readServerData` / `getPostServerData` and the template resolver.

The repository contains two maintained drafts of the provider:
* the dual-NIC, SSH-key variant (`src/unnamed/part_002`), embedded in
  namespace `DualNic`;
* the single-NIC variant with before-loop template resolution and a
  `Heartbeat` operation (`src/unnamed/part_003`), embedded in namespace
  `SingleNic`.
`Update` and `Decrease` are textually identical in both drafts and are
embedded once at top level.  External I/O (the compute API, SSH key
parsing) is modelled by explicit environment records carrying the
outcome of each call.
-/

set_option maxRecDepth 20000

namespace Provider

/-- Abstract lifecycle states of the fleeting provider library
(`gitlab.com/gitlab-org/fleeting/fleeting/provider.State`). -/
inductive State where
  | Creating
  | Running
  | Deleting
  | Deleted
  | Timeout
deriving DecidableEq, Repr

/-- `provider.ConnectInfo` as used by the plugin: the connector config is
passed through unchanged from the settings and is not modelled; the fields
the code computes are the id and the two addresses.  The zero value (Go's
`provider.ConnectInfo{}`) is the record with all fields `""`. -/
structure ConnectInfo where
  id : String := ""
  externalAddr : String := ""
  internalAddr : String := ""
deriving DecidableEq, Repr

end Provider

/-- `charsHaveStart xs ps` is true when `ps` is an initial segment of
`xs` (character-list form of Go's `strings.HasPrefix`). -/
def charsHaveStart : List Char → List Char → Bool
  | _, [] => true
  | [], _ :: _ => false
  | c :: cs, p :: ps => c = p && charsHaveStart cs ps

/-- Model of Go's `strings.HasPrefix s pat`: does `s` start with `pat`? -/
def goHasStart (s pat : String) : Bool :=
  charsHaveStart s.toList pat.toList

/-- A NIC of a remote instance as read back from the compute API
(`compute.Nic`: `Properties.Name`, `Properties.Ips`). -/
structure FetchedNic where
  name : String
  ips : List String
deriving DecidableEq, Repr

/-- A remote instance as read back from the compute API
(`compute.Server`: `Id`, `Properties.Name`, `Metadata.State`,
`Entities.Nics.Items`). -/
structure FetchedServer where
  id : String
  name : String
  state : String
  nics : List FetchedNic
deriving DecidableEq, Repr

/-- The callback trace of `Update`
(`src/unnamed/part_002:158-183` = `src/unnamed/part_003:141-166`):
for each listed instance, skip it unless its name carries the
`"gitlab-runner-cluster"` ownership marker at its start, then switch on
the provider-native state, invoking the callback for the three mapped
states and skipping every other state. -/
def Update : List FetchedServer → List (String × Provider.State)
  | [] => []
  | inst :: rest =>
    if ¬ goHasStart inst.name "gitlab-runner-cluster" then Update rest
    else if inst.state = "AVAILABLE" then (inst.id, .Running) :: Update rest
    else if inst.state = "BUSY" then (inst.id, .Creating) :: Update rest
    else if inst.state = "INACTIVE" then (inst.id, .Deleted) :: Update rest
    else Update rest

/-- Modelled from the spec: the state-mapping table of §4.5
(AVAILABLE ↦ Running, BUSY ↦ Creating, INACTIVE ↦ Deleted, anything else
unmapped).  Used only to compare `Update` against the spec's words. -/
def specStateMap (s : String) : Option Provider.State :=
  if s = "AVAILABLE" then some .Running
  else if s = "BUSY" then some .Creating
  else if s = "INACTIVE" then some .Deleted
  else none

/-- C1: for every instance in the provider listing that passes the
ownership filter, `Update` invokes the callback with the abstract state
determined solely by the provider-native state, per the table
AVAILABLE ↦ Running, BUSY ↦ Creating, INACTIVE ↦ Deleted; any other
provider state is skipped with no callback invocation, and instances
failing the ownership filter are skipped entirely. -/
theorem c1_update_state_mapping (l : List FetchedServer) :
    Update l = l.filterMap (fun inst =>
      if goHasStart inst.name "gitlab-runner-cluster" then
        (specStateMap inst.state).map (fun st => (inst.id, st))
      else none) := by
  induction l with
  | nil => rfl
  | cons inst rest ih =>
    simp only [Update, specStateMap, List.filterMap_cons]
    split_ifs <;> simp_all [specStateMap]

/-- C5: on a listing containing `"gitlab-runner-cluster-1"` (AVAILABLE)
and `"other-service-7"` (AVAILABLE), `Update` invokes the callback exactly
once, only for the first instance, with state Running. -/
theorem c5_update_ownership_filter :
    Update [⟨"i-1", "gitlab-runner-cluster-1", "AVAILABLE", []⟩,
            ⟨"i-2", "other-service-7", "AVAILABLE", []⟩]
      = [("i-1", Provider.State.Running)] := by
  decide

/-- The two Go return values of `Decrease` plus instrumentation: `calls`
records the instance ids passed to `DatacentersServersDelete`, in order.
`succeeded = none` / `err = none` model Go's `nil` slice / `nil` error;
`err` holds the parts joined by `errors.Join`. -/
structure DecreaseResult where
  succeeded : Option (List String)
  err : Option (List String)
  calls : List String
deriving DecidableEq, Repr

/-- The per-id loop of `Decrease` (`src/unnamed/part_002:193-202` =
`src/unnamed/part_003:176-185`).  `deleteRes k` is the outcome of the
`k`-th delete call (`none` = success, `some e` = the API error); each
element issues exactly one call, a failure appends to the joined error and
a success appends the id to `succeeded`.  Returns (succeeded ids, error
parts, ids passed to delete, in loop order). -/
def decLoop (deleteRes : Nat → Option String) :
    List String → Nat → List String × List String × List String
  | [], _ => ([], [], [])
  | id :: rest, k =>
    let r := decLoop deleteRes rest (k + 1)
    match deleteRes k with
    | none => (id :: r.1, r.2.1, id :: r.2.2)
    | some e => (r.1, e :: r.2.1, id :: r.2.2)

/-- `Decrease` (`src/unnamed/part_002:186-207` = `src/unnamed/part_003:169-190`):
empty input returns `(nil, nil)` before any API call; otherwise the per-id
loop runs, and the returned error is `nil` exactly when no per-id call
failed (`errors.Join` of no errors). -/
def Decrease (deleteRes : Nat → Option String) (instances : List String) :
    DecreaseResult :=
  if instances.isEmpty then ⟨none, none, []⟩
  else
    let r := decLoop deleteRes instances 0
    ⟨some r.1, if r.2.1.isEmpty then none else some r.2.1, r.2.2⟩

theorem decLoop_calls (res : Nat → Option String) :
    ∀ (ids : List String) (k : Nat), (decLoop res ids k).2.2 = ids
  | [], _ => rfl
  | id :: rest, k => by
    simp only [decLoop]
    cases h : res k <;> simp [h, decLoop_calls res rest (k + 1)]

theorem decLoop_succeeded (res : Nat → Option String) :
    ∀ (ids : List String) (k : Nat),
      (decLoop res ids k).1
        = ((List.enumFrom k ids).filter (fun p => (res p.1).isNone)).map Prod.snd
  | [], _ => rfl
  | id :: rest, k => by
    simp only [decLoop, List.enumFrom, List.filter_cons]
    cases h : res k <;>
      simp [h, decLoop_succeeded res rest (k + 1)]

theorem decLoop_sublist (res : Nat → Option String) :
    ∀ (ids : List String) (k : Nat), List.Sublist (decLoop res ids k).1 ids
  | [], _ => List.Sublist.refl _
  | id :: rest, k => by
    simp only [decLoop]
    cases h : res k with
    | none => simpa [h] using List.Sublist.cons₂ id (decLoop_sublist res rest (k + 1))
    | some e => simpa [h] using List.Sublist.cons id (decLoop_sublist res rest (k + 1))

/-- C10: for every input list of instance ids, `Decrease` issues exactly
one delete call per element (in order), the returned succeeded list is a
subsequence of the input preserving relative order and containing exactly
those ids whose delete call succeeded, and the empty input returns
`(nil, nil)` without issuing any API call. -/
theorem c10_decrease_per_item (res : Nat → Option String) (ids : List String) :
    (Decrease res ids).calls = ids ∧
    (ids = [] → Decrease res ids = ⟨none, none, []⟩) ∧
    (ids ≠ [] → ∃ L, (Decrease res ids).succeeded = some L ∧
      L = ((List.enumFrom 0 ids).filter (fun p => (res p.1).isNone)).map Prod.snd ∧
      List.Sublist L ids) := by
  refine ⟨?_, ?_, ?_⟩
  · by_cases h : ids.isEmpty
    · rw [List.isEmpty_iff] at h
      subst h; rfl
    · simp [Decrease, h, decLoop_calls]
  · intro h; subst h; rfl
  · intro h
    have hne : ids.isEmpty = false := by
      simpa [List.isEmpty_iff] using h
    refine ⟨(decLoop res ids 0).1, by simp [Decrease, hne], ?_, decLoop_sublist res ids 0⟩
    exact decLoop_succeeded res ids 0

/-- Delete-call outcomes for the C10 witness: call 1 fails, others
succeed. -/
def decRes0 : Nat → Option String := fun k => if k = 1 then some "boom" else none

theorem c10_decrease_per_item_witness :
    (["a", "b", "c"] : List String) ≠ [] ∧
    (Decrease decRes0 ["a", "b", "c"]).succeeded = some ["a", "c"] ∧
    List.Sublist ["a", "c"] ["a", "b", "c"] := by
  obtain ⟨L, hs, hchar, hsub⟩ :=
    (c10_decrease_per_item decRes0 ["a", "b", "c"]).2.2 (by decide)
  have hL : L = ["a", "c"] := by rw [hchar]; decide
  exact ⟨by decide, by rw [hs, hL], hL ▸ hsub⟩

/-- The RFC 4648 standard base64 alphabet used by Go's
`base64.StdEncoding`. -/
def base64Table : List Char :=
  "ABCDEFGHIJKLMNOPQRSTUVWXYZabcdefghijklmnopqrstuvwxyz0123456789+/".toList

def base64Char (n : Nat) : Char := base64Table.getD n 'A'

/-- Base64 encoding of a byte list, three bytes per four output chars,
padded with `=`. -/
def base64Chunks : List Nat → List Char
  | [] => []
  | [a] => [base64Char (a / 4), base64Char (a % 4 * 16), '=', '=']
  | [a, b] =>
    [base64Char (a / 4), base64Char (a % 4 * 16 + b / 16),
     base64Char (b % 16 * 4), '=']
  | a :: b :: c :: rest =>
    base64Char (a / 4) :: base64Char (a % 4 * 16 + b / 16) ::
      base64Char (b % 16 * 4 + c / 64) :: base64Char (c % 64) ::
        base64Chunks rest

/-- UTF-8 bytes of one character (how Go's `[]byte(s)` views a string). -/
def utf8Bytes (c : Char) : List Nat :=
  let n := c.toNat
  if n < 128 then [n]
  else if n < 2048 then [192 + n / 64, 128 + n % 64]
  else if n < 65536 then [224 + n / 4096, 128 + n / 64 % 64, 128 + n % 64]
  else [240 + n / 262144, 128 + n / 4096 % 64, 128 + n / 64 % 64, 128 + n % 64]

/-- Go `base64.StdEncoding.EncodeToString([]byte(s))`. -/
def base64Encode (s : String) : String :=
  String.mk (base64Chunks ((s.toList.map utf8Bytes).flatten))

/-- Two's-complement wrap to Go's `int32` range, the semantics of
`atomic.Int32.Add` (`instanceCounter.Add(1)` wraps silently at
`2^31 - 1`). -/
def int32wrap (n : Int) : Int :=
  (n + 2147483648) % 4294967296 - 2147483648

/-- `compute.VolumeProperties` as filled by the plugin; SDK pointer fields
are `Option`s (`none` = nil/unset).  The float32 `Size` is modelled by its
numeric value (the source only passes it through verbatim). -/
structure VolumeProperties where
  image : Option String := none
  volumeType : Option String := none
  userData : Option String := none
  size : Option Int := none
  sshKeys : Option (List String) := none
  imagePassword : Option String := none
deriving DecidableEq, Repr

/-- `compute.NicProperties` as filled by the plugin. -/
structure NicProperties where
  name : Option String := none
  lan : Option Int := none
  firewallActive : Option Bool := none
deriving DecidableEq, Repr

/-- `compute.ServerProperties` as filled by the plugin. -/
structure ServerProperties where
  cores : Option Int := none
  name : Option String := none
  ram : Option Int := none
  templateUuid : Option String := none
  type : Option String := none
deriving DecidableEq, Repr

/-- The `compute.Server` creation request: volume items, NIC items and
properties, as assembled by `readServerData` / `getPostServerData`. -/
structure Server where
  volumes : List VolumeProperties
  nics : List NicProperties
  properties : ServerProperties
deriving DecidableEq, Repr

/-- A CUBE template as listed by `TemplatesGet` (`Id`,
`Properties.Name`). -/
structure Template where
  id : String
  name : String
deriving DecidableEq, Repr

namespace SingleNic

/-- `ServerSpec` of the single-NIC draft (`src/unnamed/part_003:18-33`).
The Go `int32` fields `cores`, `ram`, `lanID` and the `float32`
`storageSize` are modelled by their numeric values: the source only tests
them against `0` and passes them through verbatim. -/
structure ServerSpec where
  cores : Int := 0
  image : String := ""
  imagePassword : String := ""
  name : String := ""
  lanID : Int := 0
  ram : Int := 0
  storageSize : Int := 0
  templateID : String := ""
  templateName : String := ""
  type : String := ""
  userData : String := ""
  volumeType : String := ""
deriving DecidableEq, Repr

/-- Outcomes of the external calls `Increase` makes: the result of
`TemplatesGet`, and for each `k` the outcome of the `k`-th
`DatacentersServersPost` call (`none` = success, `some e` = the API
error). -/
structure Env where
  templates : Except String (List Template)
  createRes : Nat → Option String

/-- `validateConfig` (`src/unnamed/part_003:210-239`).  `none` = valid;
`some msg` = the validation error. -/
def validateConfig (s : ServerSpec) : Option String :=
  if s.type = "" ∨ s.name = "" then
    some "type, name are required"
  else if s.lanID = 0 ∨ s.userData = "" ∨ s.volumeType = "" then
    some "lan_id, user_data, volume_type are required"
  else if ¬ (s.type = "ENTERPRISE" ∨ s.type = "CUBE") then
    some "type can be ENTERPRISE or CUBE"
  else if s.type = "CUBE" ∧ s.templateID = "" ∧ s.templateName = "" then
    some "one of template_id/template_name is required for CUBE type, if both are specified, template_id will have priority"
  else if s.type = "ENTERPRISE" ∧ (s.cores = 0 ∨ s.ram = 0 ∨ s.storageSize = 0) then
    some "cores, ram and storage_size are required for ENTERPRISE type"
  else
    none

/-- `getPostServerData` (`src/unnamed/part_003:241-306`): pure builder of
the creation request.  CUBE supplies `templateUuid` from the (possibly
name-resolved) `templateID` and leaves `cores`/`ram`/`size` unset;
ENTERPRISE supplies `cores`/`ram`/`size` and leaves `templateUuid` unset;
`userData` is base64-encoded, one private NIC is attached on the
configured LAN, and the instance is named `"<name>-<index>"`. -/
def getPostServerData (s : ServerSpec) (index : Int) : Server :=
  let cores := if s.type = "ENTERPRISE" then some s.cores else none
  let ram := if s.type = "ENTERPRISE" then some s.ram else none
  let storageSize := if s.type = "ENTERPRISE" then some s.storageSize else none
  let templateID := if s.type = "CUBE" then some s.templateID else none
  let imagePassword := if s.imagePassword ≠ "" then some s.imagePassword else none
  { volumes := [{ image := some s.image, volumeType := some s.volumeType,
                  userData := some (base64Encode s.userData),
                  size := storageSize, imagePassword := imagePassword }],
    nics := [{ name := some "privateNIC", lan := some s.lanID,
               firewallActive := some false }],
    properties := { cores := cores, name := some (s.name ++ "-" ++ toString index),
                    ram := ram, templateUuid := templateID, type := some s.type } }

/-- The template-resolution step at the head of `Increase`
(`src/unnamed/part_003:85-93`): whenever the spec has type CUBE and a
non-empty `templateName`, `TemplatesGet` is issued — even when
`templateID` is also set — and the id of the first template whose name
matches overwrites `templateID` (`getTemplateID`,
`src/unnamed/part_003:308-319`); a resolution failure aborts the call.
The second component counts `TemplatesGet` calls. -/
def resolveSpec (env : Env) (s : ServerSpec) : Except String ServerSpec × Nat :=
  if s.type = "CUBE" ∧ s.templateName ≠ "" then
    match env.templates with
    | .error e => (.error ("getting template id from template name: " ++ e), 1)
    | .ok ts =>
      match ts.find? (fun t => t.name = s.templateName) with
      | some t => (.ok { s with templateID := t.id }, 1)
      | none => (.error ("getting template id from template name: template "
                          ++ s.templateName ++ " not found"), 1)
  else (.ok s, 0)

/-- The Go return values of `Increase` plus instrumentation: `errs` holds
the parts combined by `errors.Join` (the returned error is nil iff
`errs = []`), `createCalls` counts `DatacentersServersPost` calls,
`resolverCalls` counts `TemplatesGet` calls, `counter` is the final value
of the int32 `instanceCounter`, `requests` the issued creation requests
and `indices` the allocated instance indices, in loop order. -/
structure IncreaseResult where
  succeeded : Nat
  errs : List String
  createCalls : Nat
  resolverCalls : Nat
  counter : Int
  requests : List Server
  indices : List Int
deriving Repr

/-- The creation loop of `Increase` (`src/unnamed/part_003:95-107`): each
iteration increments the int32 counter (`instanceCounter.Add(1)`), builds
the request for the allocated index, issues the create call and
classifies its outcome independently per item; `cc` numbers the create
calls. -/
def incLoop (env : Env) (s : ServerSpec) : Nat → Int → Nat → IncreaseResult
  | 0, c, _ => ⟨0, [], 0, 0, c, [], []⟩
  | d + 1, c, cc =>
    let index := int32wrap (c + 1)
    let srv := getPostServerData s index
    let r := incLoop env s d index (cc + 1)
    match env.createRes cc with
    | none =>
      ⟨r.succeeded + 1, r.errs, r.createCalls + 1, r.resolverCalls,
        r.counter, srv :: r.requests, index :: r.indices⟩
    | some e =>
      ⟨r.succeeded, e :: r.errs, r.createCalls + 1, r.resolverCalls,
        r.counter, srv :: r.requests, index :: r.indices⟩

/-- `Increase` (`src/unnamed/part_003:78-111`): validate the spec once,
run the template-resolution step once before the loop, then run the
per-item creation loop starting from counter value `c0`. -/
def Increase (env : Env) (s : ServerSpec) (c0 : Int) (delta : Nat) :
    IncreaseResult :=
  match validateConfig s with
  | some e => ⟨0, ["validating required config: " ++ e], 0, 0, c0, [], []⟩
  | none =>
    match resolveSpec env s with
    | (.error e, n) => ⟨0, [e], 0, n, c0, [], []⟩
    | (.ok s2, n) =>
      let r := incLoop env s2 delta c0 0
      { r with resolverCalls := r.resolverCalls + n }

end SingleNic

theorem int32wrap_add (a b : Int) :
    int32wrap (int32wrap a + b) = int32wrap (a + b) := by
  simp only [int32wrap]
  omega

theorem int32wrap_eq_self (n : Int) (h1 : -2147483648 ≤ n)
    (h2 : n ≤ 2147483647) : int32wrap n = n := by
  simp only [int32wrap]
  omega

namespace SingleNic

theorem incLoop_createCalls (env : Env) (s : ServerSpec) :
    ∀ (d : Nat) (c : Int) (cc : Nat), (incLoop env s d c cc).createCalls = d
  | 0, _, _ => rfl
  | d + 1, c, cc => by
    simp only [incLoop]
    cases h : env.createRes cc <;>
      simp [h, incLoop_createCalls env s d (int32wrap (c + 1)) (cc + 1)]

theorem incLoop_resolverCalls (env : Env) (s : ServerSpec) :
    ∀ (d : Nat) (c : Int) (cc : Nat), (incLoop env s d c cc).resolverCalls = 0
  | 0, _, _ => rfl
  | d + 1, c, cc => by
    simp only [incLoop]
    cases h : env.createRes cc <;>
      simp [h, incLoop_resolverCalls env s d (int32wrap (c + 1)) (cc + 1)]

theorem incLoop_errs (env : Env) (s : ServerSpec) :
    ∀ (d : Nat) (c : Int) (cc : Nat),
      (incLoop env s d c cc).errs = (List.range' cc d).filterMap env.createRes
  | 0, _, _ => rfl
  | d + 1, c, cc => by
    simp only [incLoop, List.range'_succ, List.filterMap_cons]
    cases h : env.createRes cc <;>
      simp [h, incLoop_errs env s d (int32wrap (c + 1)) (cc + 1)]

theorem incLoop_succeeded (env : Env) (s : ServerSpec) :
    ∀ (d : Nat) (c : Int) (cc : Nat),
      (incLoop env s d c cc).succeeded
        = ((List.range' cc d).filter (fun k => (env.createRes k).isNone)).length
  | 0, _, _ => rfl
  | d + 1, c, cc => by
    simp only [incLoop, List.range'_succ, List.filter_cons]
    cases h : env.createRes cc <;>
      simp [h, incLoop_succeeded env s d (int32wrap (c + 1)) (cc + 1)]

theorem incLoop_indices (env : Env) (s : ServerSpec) :
    ∀ (d : Nat) (c : Int) (cc : Nat),
      (incLoop env s d c cc).indices
        = (List.range d).map (fun k : Nat => int32wrap (c + 1 + (k : Int)))
  | 0, _, _ => rfl
  | d + 1, c, cc => by
    have ih := incLoop_indices env s d (int32wrap (c + 1)) (cc + 1)
    simp only [incLoop, List.range_succ_eq_map, List.map_cons, List.map_map]
    cases h : env.createRes cc <;>
      · simp only [h, ih]
        congr 1
        · norm_num
        · refine List.map_congr_left (fun k _ => ?_)
          have harg : int32wrap (c + 1) + 1 + (k : Int)
              = int32wrap (c + 1) + (1 + k) := by ring
          simp only [Function.comp_apply, harg, int32wrap_add]
          congr 1
          push_cast
          ring

theorem incLoop_requests (env : Env) (s : ServerSpec) :
    ∀ (d : Nat) (c : Int) (cc : Nat),
      (incLoop env s d c cc).requests
        = (incLoop env s d c cc).indices.map (getPostServerData s)
  | 0, _, _ => rfl
  | d + 1, c, cc => by
    simp only [incLoop]
    cases h : env.createRes cc <;>
      simp [h, incLoop_requests env s d (int32wrap (c + 1)) (cc + 1)]

/-- When validation passes and the template-resolution step succeeds with
resolved spec `s2`, `Increase` is the creation loop on `s2` (plus the
resolver-call count of the resolution step). -/
theorem Increase_eq_incLoop (env : Env) (s s2 : ServerSpec) (c0 : Int)
    (delta : Nat) (hval : validateConfig s = none)
    (hres : (resolveSpec env s).1 = Except.ok s2) :
    Increase env s c0 delta
      = { incLoop env s2 delta c0 0 with
          resolverCalls :=
            (incLoop env s2 delta c0 0).resolverCalls + (resolveSpec env s).2 } := by
  unfold Increase
  rw [hval]
  rcases hr : resolveSpec env s with ⟨r1, n⟩
  rw [hr] at hres
  simp only at hres
  subst hres
  rfl

/-- C2: once validation and the (single, before-loop) template-resolution
step pass, then for every delta ≥ 0 and every pattern of per-item create
outcomes, a failed create call for item N does not prevent items
N+1..delta from being attempted — exactly delta create calls are issued —
and `Increase` returns the count of items whose create call succeeded
together with the single error joining every per-item error, the error
being nil exactly when all items succeeded. -/
theorem c2_increase_partial_failure (env : Env) (s s2 : ServerSpec)
    (c0 : Int) (delta : Nat)
    (hval : validateConfig s = none)
    (hres : (resolveSpec env s).1 = Except.ok s2) :
    (Increase env s c0 delta).createCalls = delta ∧
    (Increase env s c0 delta).succeeded
      = ((List.range delta).filter (fun k => (env.createRes k).isNone)).length ∧
    (Increase env s c0 delta).errs = (List.range delta).filterMap env.createRes ∧
    ((Increase env s c0 delta).errs = [] ↔
      ∀ k, k < delta → env.createRes k = none) := by
  rw [Increase_eq_incLoop env s s2 c0 delta hval hres]
  refine ⟨incLoop_createCalls env s2 delta c0 0, ?_, ?_, ?_⟩
  · show (incLoop env s2 delta c0 0).succeeded = _
    rw [incLoop_succeeded env s2 delta c0 0, List.range_eq_range']
  · show (incLoop env s2 delta c0 0).errs = _
    rw [incLoop_errs env s2 delta c0 0, List.range_eq_range']
  · show (incLoop env s2 delta c0 0).errs = [] ↔ _
    rw [incLoop_errs env s2 delta c0 0, ← List.range_eq_range']
    simp [List.filterMap_eq_nil_iff, List.mem_range]

/-- Environment for the C2 witness: create call 0 fails, later calls
succeed. -/
def env2w : Env := ⟨.ok [], fun k => if k = 0 then some "quota exceeded" else none⟩

/-- A valid ENTERPRISE spec, shared by witnesses. -/
def specEnt : ServerSpec :=
  { cores := 4, image := "img-1", name := "pool", lanID := 3,
    ram := 8192, storageSize := 50, type := "ENTERPRISE",
    userData := "boot", volumeType := "SSD" }

theorem c2_increase_partial_failure_witness :
    (Increase env2w specEnt 0 2).createCalls = 2 ∧
    (Increase env2w specEnt 0 2).succeeded = 1 ∧
    (Increase env2w specEnt 0 2).errs = ["quota exceeded"] := by
  obtain ⟨h1, h2, h3, h4⟩ :=
    c2_increase_partial_failure env2w specEnt specEnt 0 2 (by decide) rfl
  refine ⟨h1, ?_, ?_⟩
  · rw [h2]; decide
  · rw [h3]; decide

/-- The resolution step only rewrites `templateID`; in particular the base
name is unchanged. -/
theorem resolveSpec_name (env : Env) (s s2 : ServerSpec)
    (hres : (resolveSpec env s).1 = Except.ok s2) : s2.name = s.name := by
  unfold resolveSpec at hres
  split at hres
  · split at hres
    · simp at hres
    · split at hres
      · simp only [Except.ok.injEq] at hres
        subst hres
        rfl
      · simp at hres
  · simp only [Except.ok.injEq] at hres
    subst hres
    rfl

/-- C8 (amended): provided the int32 instance counter does not overflow
(−2^31 ≤ c0 and c0 + delta ≤ 2^31 − 1), `Increase(delta)` allocates
exactly delta distinct, strictly increasing instance-index values — the
counter is incremented exactly once per creation attempt, even if every
creation call fails — and each built request names its instance
`"<name>-<index>"` from the allocated index. -/
theorem c8_increase_indices (env : Env) (s s2 : ServerSpec) (c0 : Int)
    (delta : Nat) (hval : validateConfig s = none)
    (hres : (resolveSpec env s).1 = Except.ok s2)
    (hlo : -2147483648 ≤ c0) (hhi : c0 + delta ≤ 2147483647) :
    (Increase env s c0 delta).indices
        = (List.range delta).map (fun k : Nat => c0 + 1 + (k : Int)) ∧
    (Increase env s c0 delta).indices.length = delta ∧
    List.Pairwise (fun a b => a < b) (Increase env s c0 delta).indices ∧
    (Increase env s c0 delta).indices.Nodup ∧
    (Increase env s c0 delta).requests.map (fun srv => srv.properties.name)
        = (Increase env s c0 delta).indices.map
            (fun ix => some (s.name ++ "-" ++ toString ix)) := by
  rw [Increase_eq_incLoop env s s2 c0 delta hval hres]
  have hidx : (incLoop env s2 delta c0 0).indices
      = (List.range delta).map (fun k : Nat => c0 + 1 + (k : Int)) := by
    rw [incLoop_indices env s2 delta c0 0]
    refine List.map_congr_left (fun k hk => ?_)
    have hk2 : k < delta := List.mem_range.mp hk
    exact int32wrap_eq_self _ (by omega) (by omega)
  have hpw : List.Pairwise (fun a b : Int => a < b)
      ((List.range delta).map (fun k : Nat => c0 + 1 + (k : Int))) := by
    rw [List.pairwise_map]
    exact (List.pairwise_lt_range delta).imp (fun hab => by omega)
  refine ⟨hidx, ?_, ?_, ?_, ?_⟩
  · show (incLoop env s2 delta c0 0).indices.length = delta
    rw [hidx]; simp
  · show List.Pairwise _ (incLoop env s2 delta c0 0).indices
    rw [hidx]; exact hpw
  · show (incLoop env s2 delta c0 0).indices.Nodup
    rw [hidx]
    exact hpw.imp (fun hab => by omega)
  · show (incLoop env s2 delta c0 0).requests.map _
        = (incLoop env s2 delta c0 0).indices.map _
    rw [incLoop_requests env s2 delta c0 0, List.map_map]
    refine List.map_congr_left (fun ix _ => ?_)
    show (getPostServerData s2 ix).properties.name
        = some (s.name ++ "-" ++ toString ix)
    rw [show (getPostServerData s2 ix).properties.name
        = some (s2.name ++ "-" ++ toString ix) from rfl,
      resolveSpec_name env s s2 hres]

theorem c8_increase_indices_witness :
    (Increase env2w specEnt 0 3).indices = [1, 2, 3] ∧
    List.Pairwise (fun a b : Int => a < b) (Increase env2w specEnt 0 3).indices ∧
    (Increase env2w specEnt 0 3).requests.map (fun srv => srv.properties.name)
        = [some "pool-1", some "pool-2", some "pool-3"] := by
  obtain ⟨h1, h2, h3, h4, h5⟩ :=
    c8_increase_indices env2w specEnt specEnt 0 3 (by decide) rfl
      (by norm_num) (by norm_num)
  refine ⟨?_, h3, ?_⟩
  · rw [h1]; decide
  · rw [h5, h1]; decide

/-- Environment in which every create call fails (for the overflow
counterexample the create outcomes are irrelevant). -/
def env8c : Env := ⟨.ok [], fun _ => some "failed"⟩

/-- C8 counterexample: starting from counter value 0, `Increase` with
delta = 2^31 allocates indices that are NOT strictly increasing — the
int32 counter wraps from 2147483647 to −2147483648 — so the claim as
stated (for every delta ≥ 0) is false. -/
theorem c8_increase_indices_counterexample :
    ¬ List.Pairwise (fun a b : Int => a < b)
        (Increase env8c specEnt 0 2147483648).indices := by
  intro hp
  rw [Increase_eq_incLoop env8c specEnt specEnt 0 2147483648 (by decide) rfl] at hp
  have hp2 : List.Pairwise (fun a b : Int => a < b)
      ((incLoop env8c specEnt 2147483648 0 0).indices) := hp
  rw [incLoop_indices env8c specEnt 2147483648 0 0] at hp2
  have hlt := List.pairwise_iff_getElem.mp hp2 2147483646 2147483647
    (by simp only [List.length_map, List.length_range]; norm_num)
    (by simp only [List.length_map, List.length_range]; norm_num)
    (by norm_num)
  rw [List.getElem_map, List.getElem_map, List.getElem_range,
    List.getElem_range] at hlt
  have e1 : int32wrap (0 + 1 + (2147483646 : Nat)) = 2147483647 := by decide
  have e2 : int32wrap (0 + 1 + (2147483647 : Nat)) = -2147483648 := by decide
  rw [e1, e2] at hlt
  omega

/-- Template listing for the C4 failing input: one template named
`"small-template"` with id `"resolved-uuid"`. -/
def env4 : Env := ⟨.ok [⟨"resolved-uuid", "small-template"⟩], fun _ => none⟩

/-- A valid CUBE spec with BOTH `templateID` and `templateName` set. -/
def specCubeBoth : ServerSpec :=
  { name := "pool", lanID := 3, templateID := "configured-uuid",
    templateName := "small-template", type := "CUBE",
    userData := "boot", volumeType := "DAS" }

/-- C4 (failing-input evaluation): on a valid CUBE spec whose
`template_id` is set (with `template_name` also set), `Increase` still
invokes the template resolver — once — and the issued request carries the
name-resolved id instead of the configured `template_id`, contradicting
both the claim and the priority promised by the code's own validation
message. -/
theorem c4_resolver_invoked_despite_template_id :
    (Increase env4 specCubeBoth 0 1).resolverCalls = 1 ∧
    (Increase env4 specCubeBoth 0 1).requests.map
        (fun srv => srv.properties.templateUuid) = [some "resolved-uuid"] := by
  exact ⟨by decide, by decide⟩

/-- Result of a Go call that returns (value, error) but may also panic at
runtime; `.panicked` marks a panic (index out of range / nil
dereference). -/
inductive GoResult (α : Type) where
  | ok : α → GoResult α
  | err : String → GoResult α
  | panicked : GoResult α
deriving DecidableEq, Repr

/-- `ConnectInfo` (`src/unnamed/part_003:114-138`): after a successful
fetch the code evaluates `(*server.Entities.Nics.Items)[0]` and
`(*nic.Properties.Ips)[0]` unconditionally — on a server with no NIC, or
whose first NIC has no IP, that is a Go runtime panic (index out of
range), modelled as `.panicked`; only afterwards is the state compared to
AVAILABLE.  On success only the internal address is filled. -/
def ConnectInfo (fetch : Except String FetchedServer) :
    GoResult Provider.ConnectInfo :=
  match fetch with
  | .error e => .err ("failed to get server with ID, error: " ++ e)
  | .ok server =>
    match server.nics with
    | [] => .panicked
    | nic :: _ =>
      match nic.ips with
      | [] => .panicked
      | ip :: _ =>
        if server.state ≠ "AVAILABLE" then
          .err "server is not in the AVAILABLE State"
        else
          .ok { id := server.id, internalAddr := ip }

/-- C9 (failing-input evaluation): `ConnectInfo` on a fetched instance
with zero network interfaces — and likewise on one whose interface has
zero IP addresses — panics instead of returning an error value, refuting
the no-panic claim for the single-NIC draft. -/
theorem c9_connectinfo_panics :
    ConnectInfo (.ok ⟨"i-3", "gitlab-runner-cluster-3", "AVAILABLE", []⟩)
        = GoResult.panicked ∧
    ConnectInfo (.ok ⟨"i-4", "gitlab-runner-cluster-4", "AVAILABLE",
        [⟨"privateNIC", []⟩]⟩) = GoResult.panicked := by
  exact ⟨rfl, rfl⟩

end SingleNic

namespace DualNic

/-- `ServerSpec` of the dual-NIC draft (`src/unnamed/part_002:20-36`).
The Go `int32` fields `cores`, `ram`, the LAN ids and the `float32`
`storageSize` are modelled by their numeric values: the source only tests
them against `0` and passes them through verbatim. -/
structure ServerSpec where
  cores : Int := 0
  image : String := ""
  name : String := ""
  privateLANID : Int := 0
  publicLANID : Int := 0
  ram : Int := 0
  storageSize : Int := 0
  templateID : String := ""
  templateName : String := ""
  type : String := ""
  userData : String := ""
  volumeType : String := ""
deriving DecidableEq, Repr

/-- Outcomes of the external steps taken inside `Increase` /
`readServerData`: whether the configured private key parses and yields a
public key, the marshalled public key string, the result of
`TemplatesGet`, and the outcome of each create call. -/
structure Env where
  sshOk : Bool
  sshPubKey : String
  templates : Except String (List Template)
  createRes : Nat → Option String

/-- `validateConfig` (`src/unnamed/part_002:214-243`).  `none` = valid. -/
def validateConfig (s : ServerSpec) : Option String :=
  if s.type = "" ∨ s.name = "" then
    some "type, name are required"
  else if s.publicLANID = 0 ∨ s.privateLANID = 0 ∨ s.userData = ""
      ∨ s.volumeType = "" then
    some "public_lan_id, private_lan_id, user_data, volume_type are required"
  else if ¬ (s.type = "ENTERPRISE" ∨ s.type = "CUBE") then
    some "type can be ENTERPRISE or CUBE"
  else if s.type = "CUBE" ∧ s.templateID = "" ∧ s.templateName = "" then
    some "one of template_id/template_name is required for CUBE type, if both are specified, template_id will have priority"
  else if s.type = "ENTERPRISE" ∧ (s.cores = 0 ∨ s.ram = 0 ∨ s.storageSize = 0) then
    some "cores, ram and storage_size are required for ENTERPRISE type"
  else
    none

/-- `readServerData` (`src/unnamed/part_002:245-345`): for CUBE a
non-empty `templateID` wins and the resolver is not called, otherwise the
name is resolved via `getTemplateID` (`src/unnamed/part_002:348-359`) —
inside this per-index builder, hence once per loop iteration.  ENTERPRISE
takes `cores`/`ram`/`storageSize` from the spec.  The SSH step (parse the
private key, derive and marshal the public key) runs after the template
step and aborts on failure.  The second component counts `TemplatesGet`
calls. -/
def readServerData (env : Env) (s : ServerSpec) (index : Int) :
    Except String Server × Nat :=
  let tstep : Except String (Option String) × Nat :=
    if s.type = "CUBE" then
      if s.templateID ≠ "" then (.ok (some s.templateID), 0)
      else
        match env.templates with
        | .error e => (.error e, 1)
        | .ok ts =>
          match ts.find? (fun t => t.name = s.templateName) with
          | some t => (.ok (some t.id), 1)
          | none => (.error ("template " ++ s.templateName ++ " not found"), 1)
    else (.ok none, 0)
  match tstep with
  | (.error e, n) => (.error e, n)
  | (.ok templateID, n) =>
    let cores := if s.type = "ENTERPRISE" then some s.cores else none
    let ram := if s.type = "ENTERPRISE" then some s.ram else none
    let storageSize := if s.type = "ENTERPRISE" then some s.storageSize else none
    if ¬ env.sshOk then (.error "reading private key", n)
    else
      (.ok { volumes := [{ image := some s.image,
                           volumeType := some s.volumeType,
                           userData := some (base64Encode s.userData),
                           size := storageSize,
                           sshKeys := some [env.sshPubKey] }],
             nics := [{ name := some "publicNIC", lan := some s.publicLANID,
                        firewallActive := some false },
                      { name := some "privateNIC", lan := some s.privateLANID,
                        firewallActive := some false }],
             properties := { cores := cores,
                             name := some (s.name ++ "-" ++ toString index),
                             ram := ram, templateUuid := templateID,
                             type := some s.type } }, n)

/-- Go return values of `Increase` plus instrumentation (`err = none`
models a nil error). -/
structure IncreaseResult where
  succeeded : Nat
  err : Option String
  createCalls : Nat
  resolverCalls : Nat
  counter : Int
deriving Repr

/-- The creation loop of `Increase` (`src/unnamed/part_002:93-112`).
Each iteration increments the int32 counter and runs
`serverData, err = i.readServerData(index)` — note that this assignment
overwrites the `err` accumulated so far, so after a completed loop only
the last iteration's create error survives; a `readServerData` failure
returns immediately (wrapped), a create failure is joined into the
freshly reset `err`. -/
def incLoop (env : Env) (s : ServerSpec) : Nat → Int → Nat → IncreaseResult
  | 0, c, _ => ⟨0, none, 0, 0, c⟩
  | d + 1, c, cc =>
    let index := int32wrap (c + 1)
    match readServerData env s index with
    | (.error e, n) => ⟨0, some ("reading server data: " ++ e), 0, n, index⟩
    | (.ok _, n) =>
      let r := incLoop env s d index (cc + 1)
      let oErr := env.createRes cc
      { succeeded := (if oErr = none then 1 else 0) + r.succeeded,
        err := match d with
               | 0 => oErr
               | _ + 1 => r.err,
        createCalls := r.createCalls + 1,
        resolverCalls := r.resolverCalls + n,
        counter := r.counter }

/-- `Increase` (`src/unnamed/part_002:86-116`): validate once, then run
the creation loop; template resolution and the SSH step happen inside
`readServerData`, once per iteration. -/
def Increase (env : Env) (s : ServerSpec) (c0 : Int) (delta : Nat) :
    IncreaseResult :=
  match validateConfig s with
  | some e => ⟨0, some ("validating required config: " ++ e), 0, 0, c0⟩
  | none => incLoop env s delta c0 0

/-- In an environment where the SSH step succeeds and any needed template
lookup finds a template, `readServerData` succeeds. -/
theorem readServerData_ok (env : Env) (s : ServerSpec) (index : Int)
    (hssh : env.sshOk = true)
    (hcube : s.type = "CUBE" → s.templateID = "" →
      ∃ ts t, env.templates = Except.ok ts ∧
        ts.find? (fun t => t.name = s.templateName) = some t) :
    ∃ srv n, readServerData env s index = (Except.ok srv, n) := by
  unfold readServerData
  by_cases ht : s.type = "CUBE"
  · by_cases hid : s.templateID = ""
    · obtain ⟨ts, t, hts, hfind⟩ := hcube ht hid
      simp [ht, hid, hts, hfind, hssh]
    · simp [ht, hid, hssh]
  · simp [ht, hssh]

end DualNic


namespace DualNic

/-- `validateConfig` accepts a spec exactly when none of the claimed
validation rules is violated. -/
theorem validateConfig_eq_none_iff (s : ServerSpec) :
    validateConfig s = none ↔
      ¬ (s.type = "" ∨ s.name = "" ∨ s.publicLANID = 0 ∨ s.privateLANID = 0
        ∨ s.userData = "" ∨ s.volumeType = ""
        ∨ (s.type ≠ "ENTERPRISE" ∧ s.type ≠ "CUBE")
        ∨ (s.type = "CUBE" ∧ s.templateID = "" ∧ s.templateName = "")
        ∨ (s.type = "ENTERPRISE" ∧ (s.cores = 0 ∨ s.ram = 0 ∨ s.storageSize = 0))) := by
  unfold validateConfig
  split_ifs <;> simp_all <;> try tauto

/-- C3: in an environment where the SSH step succeeds and any needed
template lookup resolves, `Increase(delta)` returns zero successes with a
non-nil error having issued no create call if and only if the spec
violates a validation rule: type or name empty; a configured LAN id zero;
user_data or volume_type empty; type outside {ENTERPRISE, CUBE}; type
CUBE with both template_id and template_name empty; type ENTERPRISE with
cores, ram or storage_size zero.  (A CUBE spec with only template_name
set passes validation — see the witness.) -/
theorem c3_validation_aborts (env : Env) (s : ServerSpec) (c0 : Int)
    (delta : Nat) (hssh : env.sshOk = true)
    (hcube : s.type = "CUBE" → s.templateID = "" →
      ∃ ts t, env.templates = Except.ok ts ∧
        ts.find? (fun t => t.name = s.templateName) = some t) :
    ((Increase env s c0 delta).succeeded = 0 ∧
     (Increase env s c0 delta).err ≠ none ∧
     (Increase env s c0 delta).createCalls = 0) ↔
      (s.type = "" ∨ s.name = "" ∨ s.publicLANID = 0 ∨ s.privateLANID = 0
        ∨ s.userData = "" ∨ s.volumeType = ""
        ∨ (s.type ≠ "ENTERPRISE" ∧ s.type ≠ "CUBE")
        ∨ (s.type = "CUBE" ∧ s.templateID = "" ∧ s.templateName = "")
        ∨ (s.type = "ENTERPRISE" ∧ (s.cores = 0 ∨ s.ram = 0 ∨ s.storageSize = 0))) := by
  cases hv : validateConfig s with
  | some e =>
    constructor
    · intro _
      by_contra hc
      have h2 := (validateConfig_eq_none_iff s).mpr hc
      rw [hv] at h2
      exact Option.some_ne_none e h2
    · intro _
      unfold Increase
      rw [hv]
      exact ⟨rfl, Option.some_ne_none _, rfl⟩
  | none =>
    constructor
    · intro hl
      exfalso
      cases delta with
      | zero =>
        unfold Increase at hl
        rw [hv] at hl
        exact hl.2.1 rfl
      | succ d =>
        obtain ⟨srv, n, hrsd⟩ :=
          readServerData_ok env s (int32wrap (c0 + 1)) hssh hcube
        have hcc : (Increase env s c0 (d + 1)).createCalls
            = (incLoop env s d (int32wrap (c0 + 1)) 1).createCalls + 1 := by
          unfold Increase
          rw [hv]
          simp only [incLoop, hrsd]
        rw [hcc] at hl
        exact Nat.succ_ne_zero _ hl.2.2
    · intro hr
      exact absurd hr ((validateConfig_eq_none_iff s).mp hv)

end DualNic

namespace DualNic

/-- Benign environment for the DualNic witnesses: the key parses, one
template is listed, all create calls succeed. -/
def env3w : Env :=
  ⟨true, "ssh-ed25519 AAAAC3-test-key", .ok [⟨"uuid-9", "cube-xs"⟩], fun _ => none⟩

/-- A CUBE spec with only `templateName` set (all required fields
present). -/
def specCubeName : ServerSpec :=
  { name := "pool", privateLANID := 2, publicLANID := 1,
    templateName := "cube-xs", type := "CUBE",
    userData := "boot", volumeType := "DAS" }

theorem c3_validation_aborts_witness :
    ((Increase env3w {} 0 1).succeeded = 0 ∧ (Increase env3w {} 0 1).err ≠ none ∧
      (Increase env3w {} 0 1).createCalls = 0) ∧
    ¬ ((Increase env3w specCubeName 0 1).succeeded = 0 ∧
       (Increase env3w specCubeName 0 1).err ≠ none ∧
       (Increase env3w specCubeName 0 1).createCalls = 0) := by
  constructor
  · exact (c3_validation_aborts env3w {} 0 1 rfl
      (fun h => absurd h (by decide))).mpr (Or.inl rfl)
  · intro hl
    have hr := (c3_validation_aborts env3w specCubeName 0 1 rfl
      (fun _ _ => ⟨[⟨"uuid-9", "cube-xs"⟩], ⟨"uuid-9", "cube-xs"⟩, rfl,
        by decide⟩)).mp hl
    revert hr
    decide

/-- C7: for every spec in an environment where the SSH step succeeds, the
built creation request selects fields by type: ENTERPRISE leaves
template_id unset and takes cores, ram and storage_size verbatim from the
spec; CUBE sets template_id (configured, or name-resolved) and leaves
cores, ram and storage_size unset. -/
theorem c7_request_fields_by_type (env : Env) (s : ServerSpec) (index : Int)
    (hssh : env.sshOk = true) :
    (s.type = "ENTERPRISE" →
      (readServerData env s index).1.map (fun srv =>
          (srv.properties.templateUuid, srv.properties.cores,
           srv.properties.ram, srv.volumes.map (fun v => v.size)))
        = Except.ok (none, some s.cores, some s.ram, [some s.storageSize])) ∧
    (s.type = "CUBE" → s.templateID ≠ "" →
      (readServerData env s index).1.map (fun srv =>
          (srv.properties.templateUuid, srv.properties.cores,
           srv.properties.ram, srv.volumes.map (fun v => v.size)))
        = Except.ok (some s.templateID, none, none, [none])) ∧
    (∀ ts t, s.type = "CUBE" → s.templateID = "" →
      env.templates = Except.ok ts →
      ts.find? (fun x => x.name = s.templateName) = some t →
      (readServerData env s index).1.map (fun srv =>
          (srv.properties.templateUuid, srv.properties.cores,
           srv.properties.ram, srv.volumes.map (fun v => v.size)))
        = Except.ok (some t.id, none, none, [none])) := by
  refine ⟨?_, ?_, ?_⟩
  · intro ht
    simp [readServerData, ht, hssh, Except.map]
  · intro ht hid
    simp [readServerData, ht, hid, hssh, Except.map]
  · intro ts t ht hid hts hfind
    simp [readServerData, ht, hid, hts, hfind, hssh, Except.map]

/-- ENTERPRISE spec for the C7 witness. -/
def specEntD : ServerSpec :=
  { cores := 4, image := "img-1", name := "pool", privateLANID := 2,
    publicLANID := 1, ram := 8192, storageSize := 50, type := "ENTERPRISE",
    userData := "boot", volumeType := "SSD" }

theorem c7_request_fields_by_type_witness :
    (readServerData env3w specEntD 1).1.map (fun srv =>
        (srv.properties.templateUuid, srv.properties.cores,
         srv.properties.ram, srv.volumes.map (fun v => v.size)))
      = Except.ok (none, some 4, some 8192, [some 50]) := by
  have h := (c7_request_fields_by_type env3w specEntD 1 rfl).1 rfl
  simpa [specEntD] using h

/-- The IP-extraction loop of `ConnectInfo`
(`src/unnamed/part_002:125-136`): for each NIC with at least one IP, a
NIC name starting with "public" sets the external address, one starting
with "private" the internal address (later NICs overwrite earlier ones);
result `(externalIP, internalIP)`. -/
def extractIPs (nics : List FetchedNic) : String × String :=
  nics.foldl (fun p nic =>
    match nic.ips with
    | [] => p
    | ip :: _ =>
      if goHasStart nic.name "public" then (ip, p.2)
      else if goHasStart nic.name "private" then (p.1, ip)
      else p) ("", "")

/-- `ConnectInfo` (`src/unnamed/part_002:119-155`): after a successful
fetch, extract the two addresses from the NICs, fail when neither kind
was found, then fail unless the provider state is exactly AVAILABLE, and
only then return the filled ConnectInfo.  Models the Go (value, error)
pair: on every failure the value is the zero ConnectInfo. -/
def ConnectInfo (fetch : Except String FetchedServer) :
    Provider.ConnectInfo × Option String :=
  match fetch with
  | .error e => ({}, some ("Failed to get server: " ++ e))
  | .ok server =>
    if (extractIPs server.nics).2 = "" ∧ (extractIPs server.nics).1 = "" then
      ({}, some "Could not find IPs")
    else if server.state ≠ "AVAILABLE" then
      ({}, some "Server is not in the AVAILABLE State")
    else
      ({ id := server.id, externalAddr := (extractIPs server.nics).1,
         internalAddr := (extractIPs server.nics).2 }, none)

/-- C6: for every fetched instance whose provider state is not exactly
AVAILABLE (for example BUSY), `ConnectInfo` returns an error together
with the zero-valued ConnectInfo — never a partially filled address — and
it likewise fails when no address of either kind can be extracted from
the instance's network interfaces. -/
theorem c6_connectinfo_requires_available (server : FetchedServer) :
    (server.state ≠ "AVAILABLE" →
      (ConnectInfo (.ok server)).1 = {} ∧ (ConnectInfo (.ok server)).2 ≠ none) ∧
    (extractIPs server.nics = ("", "") →
      (ConnectInfo (.ok server)).1 = {} ∧ (ConnectInfo (.ok server)).2 ≠ none) := by
  constructor
  · intro hst
    by_cases hip : (extractIPs server.nics).2 = "" ∧ (extractIPs server.nics).1 = ""
    · simp [ConnectInfo, hip]
    · simp [ConnectInfo, hip, hst]
  · intro hex
    have hip : (extractIPs server.nics).2 = "" ∧ (extractIPs server.nics).1 = "" := by
      rw [hex]
      exact ⟨rfl, rfl⟩
    simp [ConnectInfo, hip]

/-- A fetched server in state BUSY whose public NIC carries an IP. -/
def srvBusy : FetchedServer :=
  ⟨"i-7", "gitlab-runner-cluster-7", "BUSY", [⟨"publicNIC", ["198.51.100.7"]⟩]⟩

theorem c6_connectinfo_requires_available_witness :
    (ConnectInfo (.ok srvBusy)).1 = {} ∧ (ConnectInfo (.ok srvBusy)).2 ≠ none :=
  (c6_connectinfo_requires_available srvBusy).1 (by decide)

end DualNic
